import Mathlib

/-!
# Beat-Storm playback scheduler — verification development

Shallow embedding of the playback-scheduler core of the Beat-Storm page
component: the per-note routing performed inside `setupSynthsAndSchedule`,
the transport configuration, and the session-lifecycle operations
`cleanupAudio`, `generateBeat`, `togglePlayback` and `downloadBeat`.

Times, durations and velocities are embedded as rationals (`ℚ`); MIDI
pitches and channels as naturals.  The Tone.js transport is embedded as an
explicit record of the fields the component mutates (playing flag, loop
flags, tempo, and the list of scheduled trigger registrations); the React
component state (`isPlaying`, `isBeatReady`, `midiUrl`, `songTitle`, …)
becomes the surrounding `AppState` record, and each event handler becomes a
pure state-transition function.
-/

namespace Beatstorm

/-- One parsed MIDI note, as exposed by `@tonejs/midi`: `midi` is the pitch
number 0–127, `name` the pitch spelling (e.g. "C2"), `velocity` ∈ [0,1],
`time` the absolute start time in seconds, `duration` in seconds. -/
structure Note where
  midi : Nat
  name : String
  velocity : ℚ
  time : ℚ
  duration : ℚ
deriving Repr, DecidableEq

/-- One parsed MIDI track: a channel identifier and its notes. -/
structure Track where
  channel : Nat
  notes : List Note
deriving Repr, DecidableEq

/-- A parsed MIDI file: the list of tracks. -/
structure Midi where
  tracks : List Track
deriving Repr, DecidableEq

/-- The six voices built by `setupSynthsAndSchedule`: drum (kick), hi-hat,
bass, melody, snare and chord synths. -/
inductive Voice where
  | Kick
  | HiHat
  | Bass
  | Melody
  | Snare
  | Chord
deriving Repr, DecidableEq

/-- The argument list of one `triggerAttackRelease` call as issued by the
scheduling callback: the target voice, the optional first pitch-name
argument (`none` when the call passes no pitch/name, as in the snare
branch), and the duration, time and velocity arguments. -/
structure TriggerCall where
  voice : Voice
  pitchName : Option String
  duration : ℚ
  time : ℚ
  velocity : ℚ
deriving Repr, DecidableEq

/-- The body of the callback passed to `Tone.Transport.schedule` for a note
of a track with channel `channel`, dispatched at transport time `t`:

* channel 9, pitch 36 → `drumSynth.triggerAttackRelease(note.name, note.duration, time, note.velocity)`
* channel 9, pitch 42 or 46 → `hatSynth.triggerAttackRelease(note.name, max(note.duration, 0.03), time, note.velocity)`
* channel 9, other pitch → `snareSynth.triggerAttackRelease(note.duration, time, note.velocity)`
* channel 0 → `bassSynth.triggerAttackRelease(note.name, note.duration, time, note.velocity)`
* channel 2 → `chordSynth.triggerAttackRelease(note.name, note.duration, time, note.velocity)`
* any other channel → `melodySynth.triggerAttackRelease(note.name, note.duration, time, note.velocity)` -/
def routeNote (channel : Nat) (note : Note) (t : ℚ) : TriggerCall :=
  if channel = 9 then
    if note.midi = 36 then
      ⟨Voice.Kick, some note.name, note.duration, t, note.velocity⟩
    else if note.midi = 42 ∨ note.midi = 46 then
      ⟨Voice.HiHat, some note.name, max note.duration (3/100), t, note.velocity⟩
    else
      ⟨Voice.Snare, none, note.duration, t, note.velocity⟩
  else if channel = 0 then
    ⟨Voice.Bass, some note.name, note.duration, t, note.velocity⟩
  else if channel = 2 then
    ⟨Voice.Chord, some note.name, note.duration, t, note.velocity⟩
  else
    ⟨Voice.Melody, some note.name, note.duration, t, note.velocity⟩

/-- Modelled from the spec: the routing table of §4.1, stated directly from
the spec's words — channel 9 sends pitch 36 to Kick, pitches 42/46 to
HiHat, every other pitch to Snare; channel 0 to Bass, channel 2 to Chord,
and every other channel to the default Melody voice.  Used only to compare
the code's routing against the spec's table. -/
def specRoutingVoice (channel pitch : Nat) : Voice :=
  if channel = 9 then
    if pitch = 36 then Voice.Kick
    else if pitch = 42 ∨ pitch = 46 then Voice.HiHat
    else Voice.Snare
  else if channel = 0 then Voice.Bass
  else if channel = 2 then Voice.Chord
  else Voice.Melody

/-- One entry produced by `Tone.Transport.schedule(callback, note.time)`:
the loop-local time it was scheduled at, and the track channel and note
captured by the callback closure (firing it at transport time `t` issues
`routeNote channel note t`).  `session` is a ghost tag recording which
`setupSynthsAndSchedule` call installed the registration — Tone.js returns
a fresh event id per `schedule` call; the tag makes that provenance
explicit so that cross-session statements can be made. -/
structure Registration where
  scheduledAt : ℚ
  channel : Nat
  note : Note
  session : Nat
deriving Repr, DecidableEq

/-- Firing a registration at transport time `t` runs its captured callback. -/
def fireRegistration (r : Registration) (t : ℚ) : TriggerCall :=
  routeNote r.channel r.note t

/-- The fields of the Tone.js `Transport` singleton that the component
reads or writes: the playing flag (`start`/`stop`), the loop settings
(`loop`, `loopStart`, `loopEnd`), the tempo (`bpm.value`), and the list of
scheduled registrations (`schedule` appends one; `cancel` clears them). -/
structure TransportState where
  playing : Bool
  loopEnabled : Bool
  loopStart : ℚ
  loopEnd : ℚ
  bpm : ℚ
  scheduled : List Registration
deriving Repr, DecidableEq

/-- The component state relevant to the scheduler core: the transport, the
`synths` ref (which voices the pool currently holds live), the React state
flags and the artifact bookkeeping.  `midiUrl` models the object URL of the
last fetched blob as the blob's bytes themselves (dereferencing the URL
yields exactly those bytes); `lastError` records the message surfaced via
`alert` on a failed generation; `session` is the ghost counter matching
`Registration.session`. -/
structure AppState where
  transport : TransportState
  synths : List Voice
  isPlaying : Bool
  isGenerating : Bool
  isBeatReady : Bool
  midiUrl : Option (List Nat)
  songTitle : Option String
  selectedStyle : String
  bpm : ℚ
  lastError : Option String
  session : Nat
deriving Repr, DecidableEq

/-- The `cleanupAudio` handler: `Tone.Transport.stop()`, `Tone.Transport.cancel()`
(clearing every scheduled registration), dispose of every synth and empty
the `synths` ref, and `setIsPlaying(false)`. -/
def cleanupAudio (s : AppState) : AppState :=
  { s with
    transport := { s.transport with playing := false, scheduled := [] },
    synths := [],
    isPlaying := false }

/-- The total duration @tonejs/midi reports for one track.  Modelled from
the spec: the `Track.duration` getter lives in the external `@tonejs/midi`
library, not in this repository's sources; §3 defines the score's total
duration as the maximum of `startTime + duration` over the notes. -/
def trackDuration (tr : Track) : ℚ :=
  (tr.notes.map fun n => n.time + n.duration).foldr max 0

/-- Modelled from the spec: `midi.duration`, the total duration of the
parsed file — the maximum of `startTime + duration` over all notes (0 for
an empty score), taken trackwise as the external library does. -/
def Midi.duration (m : Midi) : ℚ :=
  (m.tracks.map trackDuration).foldr max 0

/-- The registrations installed by the `midi.tracks.forEach`/`track.notes.forEach`
scheduling loop of `setupSynthsAndSchedule`: one `Tone.Transport.schedule`
call per note of every track, at that note's `time`, tagged with the
installing session. -/
def scheduleRegs (sess : Nat) (m : Midi) : List Registration :=
  m.tracks.flatMap fun tr =>
    tr.notes.map fun n => ⟨n.time, tr.channel, n, sess⟩

/-- The `setupSynthsAndSchedule(midi)` handler: build the six synths and store them in
the `synths` ref, set `Transport.bpm.value = bpm`, `Transport.loop = true`,
`Transport.loopStart = 0`, `Transport.loopEnd = midi.duration`, then
schedule one callback per note of every track at `note.time` (appended to
whatever the transport already holds — the function itself cancels
nothing). -/
def setupSynthsAndSchedule (m : Midi) (s : AppState) : AppState :=
  { s with
    synths := [Voice.Kick, Voice.HiHat, Voice.Bass, Voice.Melody,
               Voice.Snare, Voice.Chord],
    session := s.session + 1,
    transport := { s.transport with
      bpm := s.bpm,
      loopEnabled := true,
      loopStart := 0,
      loopEnd := m.duration,
      scheduled := s.transport.scheduled ++ scheduleRegs (s.session + 1) m } }

/-- The outcome of the fetch/parse part of `generateBeat`, seen from the
component: the fetch threw or returned a non-ok response; or the response
was ok but decoding the blob into a `Midi` threw; or everything succeeded.
`header` is the filename already extracted from the `Content-Disposition`
header by the regex (`none` when the header is absent or the regex does
not match), `blob` the response body bytes. -/
inductive FetchOutcome where
  | fetchFailure
  | parseFailure (header : Option String) (blob : List Nat)
  | success (header : Option String) (blob : List Nat) (m : Midi)
deriving Repr, DecidableEq

/-- The filename computation of `generateBeat`: the extracted
`Content-Disposition` filename when one was found, otherwise the default
`beatstorm_${selectedStyle}.mid`. -/
def resolveFilename (style : String) (header : Option String) : String :=
  match header with
  | some f => f
  | none => "beatstorm_" ++ style ++ ".mid"

/-- JavaScript `String.prototype.replace` with a plain (non-empty) pattern:
replace the first occurrence of `pat`, scanning left to right. -/
def listReplaceFirst : List Char → List Char → List Char → List Char
  | [], _, _ => []
  | c :: rest, pat, repl =>
    if pat.isPrefixOf (c :: rest) then repl ++ (c :: rest).drop pat.length
    else c :: listReplaceFirst rest pat repl

/-- JavaScript `s.replace(pat, repl)` on strings (first occurrence only). -/
def jsReplaceFirst (s pat repl : String) : String :=
  ⟨listReplaceFirst s.data pat.data repl.data⟩

/-- The `generateBeat` handler: clean up the previous session, start the audio context
(no modelled state), raise `isGenerating` and clear `isBeatReady`,
`midiUrl` and `songTitle`; then fetch.  On a non-ok response or a thrown
fetch the `catch` block surfaces the error and the `finally` block lowers
`isGenerating`.  On success, derive the song title from the filename
(`filename.replace('.mid','')`), create the object URL for the blob, parse
the MIDI and run `setupSynthsAndSchedule`, then set `isBeatReady`. -/
def generateBeat (outcome : FetchOutcome) (s : AppState) : AppState :=
  let s1 : AppState :=
    { cleanupAudio s with
      isGenerating := true, isBeatReady := false,
      midiUrl := none, songTitle := none }
  match outcome with
  | .fetchFailure =>
    { s1 with lastError := some "Generation failed", isGenerating := false }
  | .parseFailure header blob =>
    let filename := resolveFilename s1.selectedStyle header
    { s1 with
      songTitle := some (jsReplaceFirst filename ".mid" ""),
      midiUrl := some blob,
      lastError := some "Parse failed", isGenerating := false }
  | .success header blob m =>
    let filename := resolveFilename s1.selectedStyle header
    let s2 : AppState :=
      { s1 with
        songTitle := some (jsReplaceFirst filename ".mid" ""),
        midiUrl := some blob }
    { setupSynthsAndSchedule m s2 with
      isBeatReady := true, isGenerating := false }

/-- The `isPlaying` branch of `togglePlayback`: `Tone.Transport.stop()` and
`setIsPlaying(false)`. -/
def stopPlayback (s : AppState) : AppState :=
  { s with transport := { s.transport with playing := false },
           isPlaying := false }

/-- The `else` branch of `togglePlayback`: `Tone.Transport.start()` and
`setIsPlaying(true)`. -/
def startPlayback (s : AppState) : AppState :=
  { s with transport := { s.transport with playing := true },
           isPlaying := true }

/-- The `togglePlayback` handler: await `Tone.start()`, then stop if `isPlaying`, else
start. -/
def togglePlayback (s : AppState) : AppState :=
  if s.isPlaying then stopPlayback s else startPlayback s

/-- What `downloadBeat` does: either nothing (early return on a null
`midiUrl`), or a click on an anchor whose `href` dereferences to the given
bytes and whose `download` attribute carries the given filename. -/
inductive DownloadAction where
  | noAction
  | download (bytes : List Nat) (filename : String)
deriving Repr, DecidableEq

/-- The `downloadBeat` handler: return immediately when `midiUrl` is null; otherwise
click an anchor with `href = midiUrl` and
`download = songTitle ? songTitle + ".mid" : "beatstorm_" + selectedStyle + ".mid"`. -/
def downloadBeat (s : AppState) : DownloadAction :=
  match s.midiUrl with
  | none => DownloadAction.noAction
  | some bytes =>
    DownloadAction.download bytes
      (match s.songTitle with
       | some t => t ++ ".mid"
       | none => "beatstorm_" ++ s.selectedStyle ++ ".mid")

/-- The style ids offered by the `STYLES` list. -/
def styleIds : List String :=
  ["boombap", "trap", "drill", "storch", "edm", "flume", "dilla"]

/-- The flattened (channel, note) pairs of a score, one per note of every
track, in scheduling order. -/
def notePairs (m : Midi) : List (Nat × Note) :=
  m.tracks.flatMap fun tr => tr.notes.map fun n => (tr.channel, n)

/-- The initial React state of the component: `selectedStyle = STYLES[0].id`,
`bpm = 90`, nothing playing, nothing scheduled, no artifact. -/
def initialState : AppState :=
  { transport := { playing := false, loopEnabled := false, loopStart := 0,
                   loopEnd := 0, bpm := 120, scheduled := [] },
    synths := [], isPlaying := false, isGenerating := false,
    isBeatReady := false, midiUrl := none, songTitle := none,
    selectedStyle := "boombap", bpm := 90, lastError := none, session := 0 }

/-- A concrete kick-drum note used in witnesses. -/
def kickNote : Note := ⟨36, "C2", 1, 0, 1/10⟩

/-- A concrete hi-hat note with a sub-floor duration used in witnesses. -/
def hatNote : Note := ⟨42, "Fs2", 9/10, 1/2, 1/100⟩

/-- A concrete off-map percussion note (pitch 38) used in witnesses. -/
def percNote : Note := ⟨38, "D2", 4/5, 1, 1/4⟩

/-- A concrete two-note percussion score used in witnesses. -/
def demoMidi : Midi := ⟨[⟨9, [kickNote, hatNote]⟩]⟩

section Lemmas

/-- Folding `max` from 0 never goes below 0. -/
lemma foldr_max_nonneg (l : List ℚ) : 0 ≤ l.foldr max 0 := by
  induction l with
  | nil => simp
  | cons x xs ih => exact le_trans ih (le_max_right x _)

/-- Folding `max` from 0 distributes over append. -/
lemma foldr_max_append (a b : List ℚ) :
    (a ++ b).foldr max 0 = max (a.foldr max 0) (b.foldr max 0) := by
  induction a with
  | nil => simp [max_eq_right (foldr_max_nonneg b)]
  | cons x xs ih => simp [ih, max_assoc]

/-- The trackwise duration maximum equals the maximum over the flattened
note list. -/
lemma duration_eq_flat_max (m : Midi) :
    m.duration
      = ((m.tracks.flatMap Track.notes).map fun n => n.time + n.duration).foldr max 0 := by
  show (m.tracks.map trackDuration).foldr max 0 = _
  induction m.tracks with
  | nil => simp
  | cons tr rest ih =>
    simp only [List.map_cons, List.foldr_cons, List.flatMap_cons,
      List.map_append, foldr_max_append, ih, trackDuration]

/-- The scheduling loop is the per-pair registration map over the flattened
score. -/
lemma scheduleRegs_eq_map (sess : Nat) (m : Midi) :
    scheduleRegs sess m
      = (notePairs m).map fun p => ⟨p.2.time, p.1, p.2, sess⟩ := by
  simp only [scheduleRegs, notePairs, List.map_flatMap, List.map_map]
  rfl

/-- Every registration installed by the scheduling loop carries the
installing session's tag. -/
lemma mem_scheduleRegs_session {r : Registration} {sess : Nat} {m : Midi}
    (h : r ∈ scheduleRegs sess m) : r.session = sess := by
  simp only [scheduleRegs, List.mem_flatMap, List.mem_map] at h
  obtain ⟨tr, -, n, -, rfl⟩ := h
  rfl

/-- The transport state produced by a successful `generateBeat` run. -/
lemma generateBeat_success_transport (s : AppState) (header : Option String)
    (blob : List Nat) (m : Midi) :
    (generateBeat (.success header blob m) s).transport =
      { playing := false, loopEnabled := true, loopStart := 0,
        loopEnd := m.duration, bpm := s.bpm,
        scheduled := scheduleRegs (s.session + 1) m } := by
  rfl

end Lemmas

/-- C1: the routing performed by the scheduling callback is a total
function of (channel, pitch) — `routeNote` is a Lean function, so every
(channel, pitch) pair resolves to exactly one trigger call and none is
dropped — and the voice it selects agrees with the spec's routing table
(`specRoutingVoice`) at every channel, pitch and dispatch time: channel 9
sends pitch 36 to Kick, pitches 42/46 to HiHat and every other pitch to
Snare; channel 0 goes to Bass, channel 2 to Chord, and every other channel
to the default Melody voice. -/
theorem routing_total_matches_table (ch : Nat) (n : Note) (t : ℚ) :
    (routeNote ch n t).voice = specRoutingVoice ch n.midi := by
  unfold routeNote specRoutingVoice
  split_ifs <;> rfl

/-- C2: every hi-hat-routed note (channel 9, pitch 42 or 46) is triggered
with duration `max note.duration 0.03`: the effective duration is at least
0.03 s, and a duration already at or above the floor passes through
unchanged. -/
theorem hihat_duration_clamped (n : Note) (t : ℚ)
    (h : n.midi = 42 ∨ n.midi = 46) :
    (routeNote 9 n t).duration = max n.duration (3/100) ∧
    (3/100 : ℚ) ≤ (routeNote 9 n t).duration ∧
    ((3/100 : ℚ) ≤ n.duration → (routeNote 9 n t).duration = n.duration) := by
  have h36 : n.midi ≠ 36 := by rcases h with h | h <;> omega
  have hdur : (routeNote 9 n t).duration = max n.duration (3/100) := by
    unfold routeNote
    simp [h36, h]
  refine ⟨hdur, ?_, fun hge => ?_⟩
  · rw [hdur]; exact le_max_right _ _
  · rw [hdur]; exact max_eq_left hge

/-- C2 witness: a hi-hat note of duration 0.01 is clamped up to 0.03, and
one of duration 2 passes through unchanged. -/
theorem hihat_duration_clamped_witness :
    (routeNote 9 hatNote 0).duration = max (1/100) (3/100) ∧
    (3/100 : ℚ) ≤ (routeNote 9 hatNote 0).duration ∧
    (routeNote 9 ⟨46, "As2", 1, 0, 2⟩ 0).duration = 2 := by
  refine ⟨(hihat_duration_clamped hatNote 0 (Or.inl rfl)).1,
          (hihat_duration_clamped hatNote 0 (Or.inl rfl)).2.1,
          (hihat_duration_clamped ⟨46, "As2", 1, 0, 2⟩ 0 (Or.inr rfl)).2.2 (by norm_num)⟩

/-- C3 counterexample: the claim says every HiHat- or Snare-routed trigger
call passes no pitch/name information, but the hi-hat branch passes
`note.name` as the first `triggerAttackRelease` argument: the concrete
channel-9 pitch-42 note `hatNote` routes to HiHat with pitch name
`some "Fs2"`, not `none`. -/
theorem hihat_call_passes_name_counterexample :
    (routeNote 9 hatNote 0).voice = Voice.HiHat ∧
    (routeNote 9 hatNote 0).pitchName = some "Fs2" ∧
    (routeNote 9 hatNote 0).pitchName ≠ none := by
  refine ⟨rfl, rfl, by simp [routeNote, hatNote]⟩

/-- C3 (amended): only the Snare branch is unpitched — every channel-9
note with pitch outside {36, 42, 46} fires the Snare voice with exactly
(duration, time, velocity) and no pitch/name argument; the HiHat branch,
by contrast, passes the note's name as its first argument. -/
theorem snare_triggered_by_duration_only (n : Note) (t : ℚ)
    (h36 : n.midi ≠ 36) (h42 : n.midi ≠ 42) (h46 : n.midi ≠ 46) :
    routeNote 9 n t = ⟨Voice.Snare, none, n.duration, t, n.velocity⟩ := by
  unfold routeNote
  simp [h36, h42, h46]

/-- C3 witness: the concrete channel-9 pitch-38 note fires Snare with no
pitch name, only duration, time and velocity. -/
theorem snare_triggered_by_duration_only_witness :
    routeNote 9 percNote 2 = ⟨Voice.Snare, none, 1/4, 2, 4/5⟩ := by
  exact snare_triggered_by_duration_only percNote 2
    (by decide) (by decide) (by decide)

/-- C4: a successful `generateBeat` configures the transport with
`loopStart = 0`, looping enabled, tempo equal to the requested bpm, and
`loopEnd = midi.duration`, which equals the maximum of
`note.time + note.duration` over all notes of the score (0 for an empty
score). -/
theorem configure_transport_settings (s : AppState) (header : Option String)
    (blob : List Nat) (m : Midi) :
    (generateBeat (.success header blob m) s).transport.loopStart = 0 ∧
    (generateBeat (.success header blob m) s).transport.loopEnabled = true ∧
    (generateBeat (.success header blob m) s).transport.bpm = s.bpm ∧
    (generateBeat (.success header blob m) s).transport.loopEnd =
      ((m.tracks.flatMap Track.notes).map fun n => n.time + n.duration).foldr max 0 := by
  rw [generateBeat_success_transport]
  exact ⟨rfl, rfl, rfl, duration_eq_flat_max m⟩

/-- C5: a successful `generateBeat` installs exactly one registration per
note of every track: the scheduled list is exactly as long as the score's
total note count; it is precisely the in-order image of the score's
flattened (channel, note) pairs, one registration per pair at that note's
loop-local `time` (so no note is registered twice and none is skipped);
and every note of every track has its registration. -/
theorem configure_installs_one_registration_per_note (s : AppState)
    (header : Option String) (blob : List Nat) (m : Midi) :
    ((generateBeat (.success header blob m) s).transport.scheduled.length
        = (m.tracks.map fun tr => tr.notes.length).sum) ∧
    ((generateBeat (.success header blob m) s).transport.scheduled
        = (notePairs m).map fun p =>
            (⟨p.2.time, p.1, p.2, s.session + 1⟩ : Registration)) ∧
    (∀ tr ∈ m.tracks, ∀ n ∈ tr.notes,
      (⟨n.time, tr.channel, n, s.session + 1⟩ : Registration)
        ∈ (generateBeat (.success header blob m) s).transport.scheduled) := by
  rw [generateBeat_success_transport]
  refine ⟨?_, scheduleRegs_eq_map _ m, fun tr htr n hn => ?_⟩
  · simp [scheduleRegs, List.length_flatMap, Function.comp_def]
  · simp only [scheduleRegs, List.mem_flatMap, List.mem_map]
    exact ⟨tr, htr, n, hn, rfl⟩

/-- C5 witness: on the concrete two-note percussion score, the configured
transport holds exactly two registrations, and the kick note's
registration sits at its start time 0. -/
theorem configure_installs_one_registration_per_note_witness :
    ((generateBeat (.success none [] demoMidi) initialState).transport.scheduled.length = 2) ∧
    (⟨0, 9, kickNote, 1⟩ : Registration)
      ∈ (generateBeat (.success none [] demoMidi) initialState).transport.scheduled := by
  have h := configure_installs_one_registration_per_note initialState none [] demoMidi
  refine ⟨by rw [h.1]; decide, ?_⟩
  have hm := h.2.2 ⟨9, [kickNote, hatNote]⟩ (by simp [demoMidi]) kickNote (by simp)
  simpa [kickNote, initialState] using hm

/-- C6: `cleanupAudio` is idempotent — running it twice from any state
equals running it once — and the state it leaves is the clean disposed one:
transport stopped, no scheduled registrations, empty voice pool, and
`isPlaying` false, with no error raised (the function is total).  The stop
operation (the `isPlaying` branch of `togglePlayback`: `Transport.stop()`
plus `setIsPlaying(false)`) is likewise idempotent. -/
theorem cleanup_and_stop_idempotent (s : AppState) :
    cleanupAudio (cleanupAudio s) = cleanupAudio s ∧
    stopPlayback (stopPlayback s) = stopPlayback s ∧
    (cleanupAudio s).transport.playing = false ∧
    (cleanupAudio s).transport.scheduled = [] ∧
    (cleanupAudio s).synths = [] ∧
    (cleanupAudio s).isPlaying = false := by
  exact ⟨rfl, rfl, rfl, rfl, rfl, rfl⟩

/-- C7 counterexample: from the disposed state reached by running
`cleanupAudio` on the initial state — no synths, nothing scheduled, not
playing — `togglePlayback` is not a no-op: it changes the state (it starts
the transport and raises `isPlaying`). -/
theorem toggle_in_disposed_state_not_noop :
    (cleanupAudio initialState).synths = [] ∧
    (cleanupAudio initialState).transport.scheduled = [] ∧
    (cleanupAudio initialState).isPlaying = false ∧
    togglePlayback (cleanupAudio initialState) ≠ cleanupAudio initialState := by
  refine ⟨rfl, rfl, rfl, fun h => ?_⟩
  have := congrArg AppState.isPlaying h
  simp [togglePlayback, startPlayback, cleanupAudio, initialState] at this

/-- C7 (amended): invoking `togglePlayback` while Unconfigured or Disposed
(empty voice pool, no registrations, `isPlaying` false) never crashes (the
function is total) and can fire no trigger — the registration list stays
empty and no voices exist — but it is not a state-preserving no-op: since
`isPlaying` is false in those states, it starts the transport and sets
`isPlaying` to true, changing exactly those two flags (the artifact and
readiness state are untouched). -/
theorem toggle_unconfigured_starts_silent_transport (s : AppState)
    (hsynths : s.synths = []) (hsched : s.transport.scheduled = [])
    (hplay : s.isPlaying = false) :
    togglePlayback s = startPlayback s ∧
    (togglePlayback s).isPlaying = true ∧
    (togglePlayback s).transport.playing = true ∧
    (togglePlayback s).transport.scheduled = [] ∧
    (togglePlayback s).synths = [] ∧
    (togglePlayback s).midiUrl = s.midiUrl ∧
    (togglePlayback s).isBeatReady = s.isBeatReady := by
  have ht : togglePlayback s = startPlayback s := by
    simp [togglePlayback, hplay]
  refine ⟨ht, ?_, ?_, ?_, ?_, ?_, ?_⟩ <;>
    simp [ht, startPlayback, hsched, hsynths]

/-- C7 witness: from the concrete disposed state, `togglePlayback` takes
the start branch, raises both playing flags, and leaves the empty
registration list and empty pool as they are. -/
theorem toggle_unconfigured_starts_silent_transport_witness :
    togglePlayback (cleanupAudio initialState)
        = startPlayback (cleanupAudio initialState) ∧
    (togglePlayback (cleanupAudio initialState)).isPlaying = true ∧
    (togglePlayback (cleanupAudio initialState)).transport.scheduled = [] := by
  have h := toggle_unconfigured_starts_silent_transport
    (cleanupAudio initialState) rfl rfl rfl
  exact ⟨h.1, h.2.1, h.2.2.2.1⟩

/-- C8: when the generation fetch fails (non-ok response or thrown error),
`generateBeat` surfaces the error (the alert message is recorded), installs
nothing, and leaves the system in a clean Unconfigured state: empty voice
pool, no registrations, transport stopped, `isPlaying`, `isBeatReady` and
`isGenerating` all false, no artifact URL and no title, the session counter
untouched (no configure happened) and the previously configured transport
settings not overwritten. -/
theorem fetch_failure_leaves_clean_state (s : AppState) :
    (generateBeat .fetchFailure s).synths = [] ∧
    (generateBeat .fetchFailure s).transport.scheduled = [] ∧
    (generateBeat .fetchFailure s).transport.playing = false ∧
    (generateBeat .fetchFailure s).isPlaying = false ∧
    (generateBeat .fetchFailure s).isBeatReady = false ∧
    (generateBeat .fetchFailure s).midiUrl = none ∧
    (generateBeat .fetchFailure s).songTitle = none ∧
    (generateBeat .fetchFailure s).isGenerating = false ∧
    (generateBeat .fetchFailure s).lastError = some "Generation failed" ∧
    (generateBeat .fetchFailure s).session = s.session ∧
    (generateBeat .fetchFailure s).transport.loopEnd = s.transport.loopEnd ∧
    (generateBeat .fetchFailure s).transport.bpm = s.transport.bpm := by
  exact ⟨rfl, rfl, rfl, rfl, rfl, rfl, rfl, rfl, rfl, rfl, rfl, rfl⟩

/-- C9: session exclusivity — after a successful `generateBeat` for score
B from a state whose scheduled registrations all belong to earlier sessions
(session tag at most the current counter), none of those old registrations
survives into the new transport: every registration that can fire after
the call carries the new session's tag, so no registration of score A ever
fires, even without a separate explicit `disposeAll`. -/
theorem session_exclusivity (s : AppState) (header : Option String)
    (blob : List Nat) (m : Midi)
    (hOld : ∀ r ∈ s.transport.scheduled, r.session ≤ s.session) :
    ∀ r ∈ s.transport.scheduled,
      r ∉ (generateBeat (.success header blob m) s).transport.scheduled := by
  intro r hr hmem
  rw [generateBeat_success_transport] at hmem
  have h1 : r.session ≤ s.session := hOld r hr
  have h2 : r.session = s.session + 1 := mem_scheduleRegs_session hmem
  omega

/-- C9 witness: a concrete session-0 registration scheduled on the initial
state does not survive a `generateBeat` for the demo score. -/
theorem session_exclusivity_witness :
    (⟨0, 9, kickNote, 0⟩ : Registration) ∉
      (generateBeat (.success none [] demoMidi)
        { initialState with transport :=
            { initialState.transport with
                scheduled := [⟨0, 9, kickNote, 0⟩] } }).transport.scheduled := by
  exact session_exclusivity
    { initialState with transport :=
        { initialState.transport with scheduled := [⟨0, 9, kickNote, 0⟩] } }
    none [] demoMidi
    (by intro r hr; simp [initialState] at hr; simp [hr, initialState])
    ⟨0, 9, kickNote, 0⟩ (by simp)

/-- Each offered style id survives the round trip through the title
computation: stripping the first ".mid" from the default filename
`beatstorm_<style>.mid` gives back `beatstorm_<style>`. -/
lemma style_title_roundtrip (st : String) (hst : st ∈ styleIds) :
    jsReplaceFirst ("beatstorm_" ++ st ++ ".mid") ".mid" "" = "beatstorm_" ++ st := by
  simp only [styleIds, List.mem_cons, List.not_mem_nil, or_false] at hst
  rcases hst with rfl | rfl | rfl | rfl | rfl | rfl | rfl <;> decide

/-- C10: `downloadBeat` does nothing when no artifact URL is stored; after
a successful `generateBeat`, it hands back exactly the fetched blob's bytes
via the stored object URL, under the name derived from the server-suggested
filename (`filename.replace('.mid','') + ".mid"`) when a Content-Disposition
filename was provided, and under the default `beatstorm_<selectedStyle>.mid`
when none was. -/
theorem download_returns_last_artifact (s : AppState)
    (hstyle : s.selectedStyle ∈ styleIds) :
    (s.midiUrl = none → downloadBeat s = DownloadAction.noAction) ∧
    (∀ (f : String) (blob : List Nat) (m : Midi),
      downloadBeat (generateBeat (.success (some f) blob m) s)
        = DownloadAction.download blob (jsReplaceFirst f ".mid" "" ++ ".mid")) ∧
    (∀ (blob : List Nat) (m : Midi),
      downloadBeat (generateBeat (.success none blob m) s)
        = DownloadAction.download blob ("beatstorm_" ++ s.selectedStyle ++ ".mid")) := by
  refine ⟨fun h => by simp [downloadBeat, h], fun f blob m => rfl, fun blob m => ?_⟩
  show DownloadAction.download blob
      (jsReplaceFirst ("beatstorm_" ++ s.selectedStyle ++ ".mid") ".mid" "" ++ ".mid") = _
  rw [style_title_roundtrip s.selectedStyle hstyle]

/-- C10 witness: at the initial state (style "boombap"), a null `midiUrl`
yields no action, and after a successful generation with no suggested
filename the download hands back the fetched bytes as
`beatstorm_boombap.mid`. -/
theorem download_returns_last_artifact_witness :
    downloadBeat initialState = DownloadAction.noAction ∧
    downloadBeat (generateBeat (.success none [7, 7] demoMidi) initialState)
      = DownloadAction.download [7, 7] "beatstorm_boombap.mid" := by
  have h := download_returns_last_artifact initialState (by decide)
  exact ⟨h.1 rfl, h.2.2 [7, 7] demoMidi⟩

end Beatstorm
